import Mathlib

/-!
Verification development for the lunaricorn cluster core: a shallow
embedding, in Lean, of the registrar (leader), the signaling hub and
client, and the orb storage, together with theorems checking the
specification claims against the embedded code.

Conventions of the embedding:
* machine integers and timestamps are `Int`;
* database tables are Lean lists of row structures; the per-statement
  success of the database is a boolean flag in the state (the Python code
  turns both a failed connection check and a raised statement error into
  the same fallback return value);
* Python `None` is `Option.none` (or `JVal.jnull` inside json values);
* dynamic (json) values are the `JVal` inductive;
* functions that mutate state return the new state explicitly;
* a raised Python exception is `Except.error`.
-/

namespace Lunaricorn

/-- Json-like dynamic values as handled by the Python services. -/
inductive JVal where
  | jnull : JVal
  | jbool : Bool → JVal
  | jnum : Int → JVal
  | jstr : String → JVal
  | jarr : List JVal → JVal
  | jobj : List (String × JVal) → JVal
deriving Repr

/-- Python truthiness of a json-like value: None, False, 0, empty string,
empty list and empty dict are falsy, everything else truthy. -/
def JVal.truthy : JVal → Bool
  | .jnull => false
  | .jbool b => b
  | .jnum n => n != 0
  | .jstr s => s ≠ ""
  | .jarr xs => !xs.isEmpty
  | .jobj fs => !fs.isEmpty

/-- Python equality test between a json value and a string: only a string
value can compare equal to a string. -/
def JVal.eqStr : JVal → String → Bool
  | .jstr s, t => s = t
  | _, _ => false

/-- Textual rendering of a json value, used where the Python code hands a
value to a text database column or to str(). -/
def JVal.asText : JVal → String
  | .jnull => "None"
  | .jbool b => if b then "True" else "False"
  | .jnum n => toString n
  | .jstr s => s
  | .jarr _ => "<list>"
  | .jobj _ => "<dict>"

/-- A Python dict used as a decoded json request: an association list. -/
abbrev PyDict := List (String × JVal)

/-- dict.get(key): first binding wins, none when the key is absent. -/
def dictGet (d : PyDict) (k : String) : Option JVal :=
  match d with
  | [] => none
  | (k0, v) :: rest => if k0 = k then some v else dictGet rest k

/-- dict.get(key, default). -/
def dictGetD (d : PyDict) (k : String) (dflt : JVal) : JVal :=
  (dictGet d k).getD dflt

/-- dict membership test (the `in` operator). -/
def dictHas (d : PyDict) (k : String) : Bool :=
  (dictGet d k).isSome

/-- Insert an element into a list sorted descending by an integer key,
keeping the descending order (the relational ORDER BY ... DESC). -/
def insertDesc {α : Type} (key : α → Int) (x : α) : List α → List α
  | [] => [x]
  | y :: ys => if key y ≤ key x then x :: y :: ys else y :: insertDesc key x ys

/-- Sort a list descending by an integer key. -/
def sortDesc {α : Type} (key : α → Int) : List α → List α
  | [] => []
  | x :: xs => insertDesc key x (sortDesc key xs)

/-- Boolean check that a list is sorted descending by the key. -/
def isSortedDesc {α : Type} (key : α → Int) : List α → Bool
  | [] => true
  | [_] => true
  | x :: y :: rest => decide (key y ≤ key x) && isSortedDesc key (y :: rest)

theorem mem_insertDesc {α : Type} (key : α → Int) (x a : α) (l : List α) :
    a ∈ insertDesc key x l ↔ a = x ∨ a ∈ l := by
  induction l with
  | nil => simp [insertDesc]
  | cons y ys ih =>
    by_cases h : key y ≤ key x
    · simp [insertDesc, h]
    · simp [insertDesc, h, ih]
      tauto

theorem mem_sortDesc {α : Type} (key : α → Int) (a : α) (l : List α) :
    a ∈ sortDesc key l ↔ a ∈ l := by
  induction l with
  | nil => simp [sortDesc]
  | cons x xs ih => simp [sortDesc, mem_insertDesc, ih]

theorem length_insertDesc {α : Type} (key : α → Int) (x : α) (l : List α) :
    (insertDesc key x l).length = l.length + 1 := by
  induction l with
  | nil => simp [insertDesc]
  | cons y ys ih =>
    by_cases h : key y ≤ key x
    · simp [insertDesc, h]
    · simp [insertDesc, h, ih]

theorem length_sortDesc {α : Type} (key : α → Int) (l : List α) :
    (sortDesc key l).length = l.length := by
  induction l with
  | nil => rfl
  | cons x xs ih => simp [sortDesc, length_insertDesc, ih]

theorem isSortedDesc_cons {α : Type} (key : α → Int) (x : α) (l : List α)
    (hl : isSortedDesc key l = true) (hx : ∀ a ∈ l, key a ≤ key x) :
    isSortedDesc key (x :: l) = true := by
  cases l with
  | nil => rfl
  | cons y ys =>
    simp only [isSortedDesc, Bool.and_eq_true, decide_eq_true_eq]
    exact ⟨hx y (by simp), hl⟩

theorem isSortedDesc_tail {α : Type} (key : α → Int) (y : α) (l : List α)
    (h : isSortedDesc key (y :: l) = true) : isSortedDesc key l = true := by
  cases l with
  | nil => rfl
  | cons z zs =>
    simp only [isSortedDesc, Bool.and_eq_true, decide_eq_true_eq] at h
    exact h.2

theorem sorted_head_ge {α : Type} (key : α → Int) (y a : α) (l : List α)
    (h : isSortedDesc key (y :: l) = true) (ha : a ∈ l) : key a ≤ key y := by
  induction l generalizing y with
  | nil => simp at ha
  | cons z zs ih =>
    have hz : (decide (key z ≤ key y) && isSortedDesc key (z :: zs)) = true := by
      simpa [isSortedDesc] using h
    simp only [Bool.and_eq_true, decide_eq_true_eq] at hz
    rcases List.mem_cons.mp ha with rfl | ha2
    · exact hz.1
    · exact le_trans (ih z hz.2 ha2) hz.1

theorem isSortedDesc_insertDesc {α : Type} (key : α → Int) (x : α) (l : List α)
    (hl : isSortedDesc key l = true) :
    isSortedDesc key (insertDesc key x l) = true := by
  induction l with
  | nil => rfl
  | cons y ys ih =>
    by_cases h : key y ≤ key x
    · simp only [insertDesc, if_pos h]
      apply isSortedDesc_cons
      · exact hl
      · intro a ha
        rcases List.mem_cons.mp ha with rfl | ha
        · exact h
        · exact le_trans (sorted_head_ge key y a ys hl ha) h
    · simp only [insertDesc, if_neg h]
      have hys : isSortedDesc key ys = true := isSortedDesc_tail key y ys hl
      have hrec := ih hys
      apply isSortedDesc_cons key y _ hrec
      intro a ha
      rcases (mem_insertDesc key x a ys).mp ha with rfl | ha2
      · exact le_of_not_le h
      · exact sorted_head_ge key y a ys hl ha2

theorem isSortedDesc_sortDesc {α : Type} (key : α → Int) (l : List α) :
    isSortedDesc key (sortDesc key l) = true := by
  induction l with
  | nil => rfl
  | cons x xs ih => exact isSortedDesc_insertDesc key x _ ih

/-! ## Cluster registrar (leader)

Embedding of src/services/leader/internal/discover_pg.py and
src/services/leader/internal/leader.py, plus the /v1/imalive HTTP handler
of src/services/leader/leader_app.py. -/

/-- A row of the last_seen table (node inventory). -/
structure NodeRow where
  name : String
  type : String
  key : String
  last_update : Int
deriving Repr, DecidableEq

/-- State seen by the registrar: the last_seen table, the cluster_state
table (key to integer), the wall clock, and whether the database layer is
working. dbOk = false covers both a failed validate_connection check and a
raised statement error, which the Python code maps to the same fallback
return values. -/
structure LeaderState where
  rows : List NodeRow
  clusterState : List (String × Int)
  dbOk : Bool
  now : Int
deriving Repr, DecidableEq

/-- Static configuration of the registrar (leader_config.yaml: discover
section). -/
structure LeaderConfig where
  required_nodes : List String
  alive_timeout : Int
deriving Repr, DecidableEq

namespace DiscoverManagerPG

/-- DiscoverManagerPG.list: empty list when the connection is invalid or
the query raises, otherwise the rows with last_update >= now - offset,
ordered by last_update descending. -/
def list (st : LeaderState) (offset : Int) : List NodeRow :=
  if !st.dbOk then []
  else sortDesc (fun r => r.last_update)
    (st.rows.filter (fun r => st.now - offset ≤ r.last_update))

/-- DiscoverManagerPG.update: upsert of the last_seen row keyed by
instance_key, stamping last_update with the current time; returns False
and leaves the table unchanged when the database is unavailable or the
statement raises. -/
def update (st : LeaderState) (node_name node_type instance_key : String) :
    Bool × LeaderState :=
  if !st.dbOk then (false, st)
  else if st.rows.any (fun r => r.key = instance_key) then
    (true, { st with rows := st.rows.map (fun r =>
      if r.key = instance_key then
        { name := node_name, type := node_type, key := instance_key,
          last_update := st.now }
      else r) })
  else
    (true, { st with rows := st.rows ++
      [{ name := node_name, type := node_type, key := instance_key,
         last_update := st.now }] })

/-- Lookup in the cluster_state table. -/
def lookupState (cs : List (String × Int)) (k : String) : Option Int :=
  match cs with
  | [] => none
  | (k0, v) :: rest => if k0 = k then some v else lookupState rest k

/-- Upsert into the cluster_state table: the INSERT ... ON CONFLICT (key)
DO UPDATE SET i = EXCLUDED.i statement, writing exactly the given value. -/
def upsertState (cs : List (String × Int)) (k : String) (v : Int) :
    List (String × Int) :=
  if cs.any (fun p => p.1 = k) then
    cs.map (fun p => if p.1 = k then (k, v) else p)
  else cs ++ [(k, v)]

/-- DiscoverManagerPG.get_message_id: SELECT i FROM cluster_state WHERE
key = MESSAGE_ID; 0 when the row is absent, the connection is invalid, or
the query raises. -/
def get_message_id (st : LeaderState) : Int :=
  if !st.dbOk then 0
  else (lookupState st.clusterState "MESSAGE_ID").getD 0

/-- DiscoverManagerPG.update_message_id: blind upsert of the given value
under key MESSAGE_ID; False on database failure. -/
def update_message_id (st : LeaderState) (message_id : Int) :
    Bool × LeaderState :=
  if !st.dbOk then (false, st)
  else (true, { st with
    clusterState := upsertState st.clusterState "MESSAGE_ID" message_id })

/-- DiscoverManagerPG.get_object_id, same shape for key OBJECT_ID. -/
def get_object_id (st : LeaderState) : Int :=
  if !st.dbOk then 0
  else (lookupState st.clusterState "OBJECT_ID").getD 0

/-- DiscoverManagerPG.update_object_id, same shape for key OBJECT_ID. -/
def update_object_id (st : LeaderState) (object_id : Int) :
    Bool × LeaderState :=
  if !st.dbOk then (false, st)
  else (true, { st with
    clusterState := upsertState st.clusterState "OBJECT_ID" object_id })

end DiscoverManagerPG

namespace Leader

/-- Leader.get_active_nodes: the alive nodes, using the configured
alive_timeout as the offset. -/
def get_active_nodes (cfg : LeaderConfig) (st : LeaderState) : List NodeRow :=
  DiscoverManagerPG.list st cfg.alive_timeout

/-- Leader.ready: collect the missing required node names; ready exactly
when none is missing. -/
def ready (cfg : LeaderConfig) (st : LeaderState) : Bool :=
  let aliveNodeNames := (get_active_nodes cfg st).map (fun r => r.name)
  let missingNodes := cfg.required_nodes.filter
    (fun n => !aliveNodeNames.contains n)
  missingNodes.isEmpty

/-- Leader.get_list: raises NotReadyException unless ready, otherwise the
alive list. -/
def get_list (cfg : LeaderConfig) (st : LeaderState) :
    Except String (List NodeRow) :=
  if !ready cfg st then Except.error "Leader is not ready to start"
  else Except.ok (get_active_nodes cfg st)

/-- Leader.get_next_message_id: read the stored counter, add one in the
registrar process, write the sum back with the blind upsert, return the
sum. The boolean result of the write is discarded by the source. -/
def get_next_message_id (st : LeaderState) : Int × LeaderState :=
  let current_mid := DiscoverManagerPG.get_message_id st
  let current_mid := current_mid + 1
  let st1 := (DiscoverManagerPG.update_message_id st current_mid).2
  (current_mid, st1)

/-- Leader.get_next_object_id, same shape for OBJECT_ID. -/
def get_next_object_id (st : LeaderState) : Int × LeaderState :=
  let current_oid := DiscoverManagerPG.get_object_id st
  let current_oid := current_oid + 1
  let st1 := (DiscoverManagerPG.update_object_id st current_oid).2
  (current_oid, st1)

end Leader

/-- Body of a /v1/imalive request after pydantic parsing. -/
structure ImAliveRequest where
  node_name : String
  node_type : String
  instance_key : String
  host : Option String := none
  port : Option Int := none
deriving Repr, DecidableEq

/-- An HTTP error response: status code and detail text. -/
structure HttpError where
  code : Int
  detail : String
deriving Repr, DecidableEq

/-- The /v1/imalive handler of leader_app.py: field checks (the type
checks of the source are vacuous here because the embedding is typed),
then Leader.update_node; a False return becomes the generic 500. -/
def im_alive (st : LeaderState) (req : ImAliveRequest) :
    Except HttpError String × LeaderState :=
  if req.node_name = "" then
    (Except.error { code := 500, detail := "Invalid or missing node_name" }, st)
  else if req.node_type = "" then
    (Except.error { code := 500, detail := "Invalid or missing node_type" }, st)
  else if req.instance_key = "" then
    (Except.error { code := 500, detail := "Invalid or missing instance_key" }, st)
  else
    let (rc, st1) := DiscoverManagerPG.update st req.node_name req.node_type
      req.instance_key
    if rc then (Except.ok "received", st1)
    else (Except.error { code := 500, detail := "Failed to update node" }, st1)

/-! ### Two concurrent callers of get_next_message_id

Each call is two database statements: the SELECT of the stored counter
and the upsert of its successor. A caller is modelled by a program
counter; an interleaving is a list of caller indices. -/

/-- A caller of Leader.get_next_message_id, split at its two database
statements: pc 0 = about to SELECT, pc 1 = about to upsert, pc 2 = done. -/
structure MidCaller where
  pc : Nat := 0
  localVal : Int := 0
  ret : Option Int := none
deriving Repr, DecidableEq

/-- One step of a caller: the SELECT (computing the incremented value in
process memory) or the blind upsert returning the value. -/
def midStep (st : LeaderState) (c : MidCaller) : LeaderState × MidCaller :=
  match c.pc with
  | 0 => (st, { pc := 1,
                localVal := DiscoverManagerPG.get_message_id st + 1,
                ret := none })
  | 1 => ((DiscoverManagerPG.update_message_id st c.localVal).2,
          { pc := 2, localVal := c.localVal, ret := some c.localVal })
  | _ => (st, c)

/-- Run an interleaving: each schedule entry advances the named caller by
one database statement. -/
def runSched (st : LeaderState) (cs : List MidCaller) :
    List Nat → LeaderState × List MidCaller
  | [] => (st, cs)
  | i :: rest =>
    match cs[i]? with
    | none => runSched st cs rest
    | some c =>
      let (st1, c1) := midStep st c
      runSched st1 (cs.set i c1) rest

/-! ## Lemmas about the cluster_state upsert -/

theorem lookupState_map_overwrite (k : String) (v : Int) :
    ∀ cs : List (String × Int), cs.any (fun p => p.1 = k) = true →
    DiscoverManagerPG.lookupState
      (cs.map (fun p => if p.1 = k then (k, v) else p)) k = some v := by
  intro cs
  induction cs with
  | nil => intro h; simp at h
  | cons p rest ih =>
    intro h
    by_cases hp : p.1 = k
    · have hif : (if p.1 = k then (k, v) else p) = (k, v) := if_pos hp
      rw [List.map_cons, hif]
      simp [DiscoverManagerPG.lookupState]
    · have hif : (if p.1 = k then (k, v) else p) = p := if_neg hp
      have h2 : rest.any (fun p => p.1 = k) = true := by
        simp only [List.any_cons, Bool.or_eq_true, decide_eq_true_eq] at h
        rcases h with h | h
        · exact absurd h hp
        · exact h
      rw [List.map_cons, hif]
      simp [DiscoverManagerPG.lookupState, hp, ih h2]

theorem lookupState_append_new (k : String) (v : Int) :
    ∀ cs : List (String × Int), cs.any (fun p => p.1 = k) = false →
    DiscoverManagerPG.lookupState (cs ++ [(k, v)]) k = some v := by
  intro cs
  induction cs with
  | nil => intro _; simp [DiscoverManagerPG.lookupState]
  | cons p rest ih =>
    intro h
    simp only [List.any_cons, Bool.or_eq_false_iff, decide_eq_false_iff_not] at h
    simp [DiscoverManagerPG.lookupState, h.1, ih (by simp [h.2])]

theorem lookupState_upsertState (cs : List (String × Int)) (k : String) (v : Int) :
    DiscoverManagerPG.lookupState (DiscoverManagerPG.upsertState cs k v) k
      = some v := by
  unfold DiscoverManagerPG.upsertState
  by_cases h : cs.any (fun p => p.1 = k) = true
  · rw [if_pos h]
    exact lookupState_map_overwrite k v cs h
  · rw [if_neg h]
    exact lookupState_append_new k v cs (by
      cases hx : cs.any (fun p => p.1 = k) with
      | false => rfl
      | true => exact absurd hx h)

theorem update_message_id_state (st : LeaderState) (v : Int)
    (hdb : st.dbOk = true) :
    (DiscoverManagerPG.update_message_id st v).2
      = { st with clusterState :=
            DiscoverManagerPG.upsertState st.clusterState "MESSAGE_ID" v } := by
  simp [DiscoverManagerPG.update_message_id, hdb]

theorem update_object_id_state (st : LeaderState) (v : Int)
    (hdb : st.dbOk = true) :
    (DiscoverManagerPG.update_object_id st v).2
      = { st with clusterState :=
            DiscoverManagerPG.upsertState st.clusterState "OBJECT_ID" v } := by
  simp [DiscoverManagerPG.update_object_id, hdb]

/-! ## Claim theorems: registrar -/

/-- Fresh state for the C1 counterexample: empty cluster_state table,
working database. -/
def c1_state0 : LeaderState :=
  { rows := [], clusterState := [], dbOk := true, now := 0 }

/-- C1 counterexample: two concurrent callers of get_next_message_id,
interleaved SELECT-SELECT-upsert-upsert on fresh state, both receive the
value 1 — the returned values are not pairwise distinct, refuting the
claim that concurrent callers always see distinct, strictly increasing,
never-reused identifiers. -/
theorem c1_counterexample :
    ((runSched c1_state0 [{}, {}] [0, 1, 0, 1]).2.map (fun c => c.ret)
      = [some 1, some 1])
    ∧ ¬ ((runSched c1_state0 [{}, {}] [0, 1, 0, 1]).2.map
          (fun c => c.ret)).Nodup := by
  constructor
  · rfl
  · rw [show (runSched c1_state0 [{}, {}] [0, 1, 0, 1]).2.map (fun c => c.ret)
        = [some 1, some 1] from rfl]
    decide

/-- C1 (amended): each call of get_next_message_id / get_next_object_id
reads the stored counter, increments it in the registrar process, writes
the sum back with the blind INSERT ... ON CONFLICT ... DO UPDATE, and
returns the post-increment value (1 on fresh state); calls that do not
interleave therefore return strictly increasing, pairwise distinct
values, but the read and the write are separate statements, so
concurrently interleaved calls can return duplicates. -/
theorem c1_sequential_increment (st : LeaderState) (hdb : st.dbOk = true) :
    (Leader.get_next_message_id st).1
        = DiscoverManagerPG.get_message_id st + 1
    ∧ DiscoverManagerPG.get_message_id (Leader.get_next_message_id st).2
        = DiscoverManagerPG.get_message_id st + 1
    ∧ (Leader.get_next_message_id (Leader.get_next_message_id st).2).1
        = DiscoverManagerPG.get_message_id st + 2
    ∧ (st.clusterState = [] → (Leader.get_next_message_id st).1 = 1)
    ∧ (Leader.get_next_object_id st).1
        = DiscoverManagerPG.get_object_id st + 1
    ∧ DiscoverManagerPG.get_object_id (Leader.get_next_object_id st).2
        = DiscoverManagerPG.get_object_id st + 1 := by
  have hmidstate := update_message_id_state st
    (DiscoverManagerPG.get_message_id st + 1) hdb
  have hmid1 : DiscoverManagerPG.get_message_id (Leader.get_next_message_id st).2
      = DiscoverManagerPG.get_message_id st + 1 := by
    unfold Leader.get_next_message_id
    rw [hmidstate]
    simp [DiscoverManagerPG.get_message_id, hdb, lookupState_upsertState]
  refine ⟨rfl, hmid1, ?_, ?_, rfl, ?_⟩
  · show DiscoverManagerPG.get_message_id (Leader.get_next_message_id st).2 + 1
        = DiscoverManagerPG.get_message_id st + 2
    rw [hmid1]
    omega
  · intro hfresh
    simp [Leader.get_next_message_id, DiscoverManagerPG.get_message_id, hdb,
      hfresh, DiscoverManagerPG.lookupState]
  · have hoidstate := update_object_id_state st
      (DiscoverManagerPG.get_object_id st + 1) hdb
    unfold Leader.get_next_object_id
    rw [hoidstate]
    simp [DiscoverManagerPG.get_object_id, hdb, lookupState_upsertState]

/-- Concrete state for the C1 witness: counter already at 41. -/
def c1w_st : LeaderState :=
  { rows := [], clusterState := [("MESSAGE_ID", 41), ("OBJECT_ID", 7)],
    dbOk := true, now := 0 }

/-- Witness for the amended C1 at a concrete state. -/
theorem c1_witness :
    c1w_st.dbOk = true
    ∧ ((Leader.get_next_message_id c1w_st).1
          = DiscoverManagerPG.get_message_id c1w_st + 1
    ∧ DiscoverManagerPG.get_message_id (Leader.get_next_message_id c1w_st).2
          = DiscoverManagerPG.get_message_id c1w_st + 1
    ∧ (Leader.get_next_message_id (Leader.get_next_message_id c1w_st).2).1
          = DiscoverManagerPG.get_message_id c1w_st + 2
    ∧ (c1w_st.clusterState = [] → (Leader.get_next_message_id c1w_st).1 = 1)
    ∧ (Leader.get_next_object_id c1w_st).1
          = DiscoverManagerPG.get_object_id c1w_st + 1
    ∧ DiscoverManagerPG.get_object_id (Leader.get_next_object_id c1w_st).2
          = DiscoverManagerPG.get_object_id c1w_st + 1) :=
  ⟨rfl, c1_sequential_increment c1w_st rfl⟩

/-- C2: with a working database, ready() returns true exactly when every
name in required_nodes is the name of a node row counted alive
(now - last_update ≤ alive_timeout), and get_list() fails with the
not-ready error exactly when ready() is false. -/
theorem c2_ready_iff_required_alive (cfg : LeaderConfig) (st : LeaderState)
    (hdb : st.dbOk = true) :
    (Leader.ready cfg st = true ↔
      ∀ n ∈ cfg.required_nodes, ∃ r ∈ st.rows,
        r.name = n ∧ st.now - r.last_update ≤ cfg.alive_timeout)
    ∧ (Leader.get_list cfg st = Except.error "Leader is not ready to start"
        ↔ Leader.ready cfg st = false) := by
  have hmem : ∀ n : String,
      (n ∈ (Leader.get_active_nodes cfg st).map (fun r => r.name)) ↔
      ∃ r ∈ st.rows, r.name = n ∧ st.now - r.last_update ≤ cfg.alive_timeout := by
    intro n
    unfold Leader.get_active_nodes DiscoverManagerPG.list
    rw [hdb]
    simp only [Bool.not_true, Bool.false_eq_true, if_false, List.mem_map,
      mem_sortDesc, List.mem_filter, decide_eq_true_eq]
    constructor
    · rintro ⟨r, ⟨hr, hle⟩, rfl⟩
      exact ⟨r, hr, rfl, by omega⟩
    · rintro ⟨r, hr, rfl, hle⟩
      exact ⟨r, ⟨hr, by omega⟩, rfl⟩
  constructor
  · unfold Leader.ready
    simp only [List.isEmpty_iff, List.filter_eq_nil_iff, Bool.not_eq_true,
      Bool.not_eq_true']
    constructor
    · intro h n hn
      have := h n hn
      rw [← hmem n]
      simpa [List.elem_iff] using this
    · intro h n hn
      have := (hmem n).mpr (h n hn)
      simpa [List.elem_iff] using this
  · unfold Leader.get_list
    by_cases hr : Leader.ready cfg st = true
    · simp [hr]
    · simp [Bool.not_eq_true] at hr
      simp [hr]

/-- Required-ready configuration and state for the C2 witness. -/
def c2w_cfg : LeaderConfig := { required_nodes := ["signaling"], alive_timeout := 10 }

/-- State for the C2 witness. -/
def c2w_st : LeaderState :=
  { rows := [{ name := "signaling", type := "sig", key := "s1", last_update := 95 }],
    clusterState := [], dbOk := true, now := 100 }

/-- Witness for C2 at a concrete ready state. -/
theorem c2_witness :
    c2w_st.dbOk = true
    ∧ ((Leader.ready c2w_cfg c2w_st = true ↔
        ∀ n ∈ c2w_cfg.required_nodes, ∃ r ∈ c2w_st.rows,
          r.name = n ∧ c2w_st.now - r.last_update ≤ c2w_cfg.alive_timeout)
    ∧ (Leader.get_list c2w_cfg c2w_st
          = Except.error "Leader is not ready to start"
        ↔ Leader.ready c2w_cfg c2w_st = false)) :=
  ⟨rfl, c2_ready_iff_required_alive c2w_cfg c2w_st rfl⟩

/-- Configuration with no required nodes, for the C10 counterexample. -/
def c10_cfg : LeaderConfig := { required_nodes := [], alive_timeout := 10 }

/-- State whose database layer is failing, for the C10 counterexample. -/
def c10_st : LeaderState :=
  { rows := [{ name := "signaling", type := "sig", key := "s1", last_update := 100 }],
    clusterState := [], dbOk := false, now := 100 }

/-- C10 counterexample: with a failing database (node-inventory query
returns the error fallback) but an empty required_nodes list, ready()
evaluates to true, refuting the claim that ready() is false whenever the
node-inventory query fails. -/
theorem c10_counterexample :
    c10_st.dbOk = false
    ∧ DiscoverManagerPG.list c10_st c10_cfg.alive_timeout = []
    ∧ Leader.ready c10_cfg c10_st = true := ⟨rfl, rfl, rfl⟩

/-- C10 (amended): on database failure, list returns the empty list and
update returns False leaving the inventory unchanged; ready() is then
false whenever required_nodes is nonempty (with an empty required list
the registrar still reports ready), get_list fails with the not-ready
error, and a well-formed beacon is answered with the generic 500
Failed-to-update-node, leaving the state unchanged. -/
theorem c10_db_error_behaviour (cfg : LeaderConfig) (st : LeaderState)
    (req : ImAliveRequest) (hdb : st.dbOk = false)
    (hname : req.node_name ≠ "") (htype : req.node_type ≠ "")
    (hkey : req.instance_key ≠ "") (hreqd : cfg.required_nodes ≠ []) :
    DiscoverManagerPG.list st cfg.alive_timeout = []
    ∧ DiscoverManagerPG.update st req.node_name req.node_type req.instance_key
        = (false, st)
    ∧ Leader.ready cfg st = false
    ∧ Leader.get_list cfg st = Except.error "Leader is not ready to start"
    ∧ im_alive st req
        = (Except.error { code := 500, detail := "Failed to update node" }, st) := by
  have hlist : DiscoverManagerPG.list st cfg.alive_timeout = [] := by
    simp [DiscoverManagerPG.list, hdb]
  have hupd : DiscoverManagerPG.update st req.node_name req.node_type
      req.instance_key = (false, st) := by
    simp [DiscoverManagerPG.update, hdb]
  have hready : Leader.ready cfg st = false := by
    unfold Leader.ready Leader.get_active_nodes
    rw [hlist]
    cases h : cfg.required_nodes with
    | nil => exact absurd h hreqd
    | cons n rest => simp [h, List.filter]
  refine ⟨hlist, hupd, hready, ?_, ?_⟩
  · simp [Leader.get_list, hready]
  · simp [im_alive, hname, htype, hkey, hupd]

/-- Beacon request for the C10 witness. -/
def c10w_req : ImAliveRequest :=
  { node_name := "orb", node_type := "orb", instance_key := "orb-1" }

/-- Configuration with one required node, for the C10 witness. -/
def c10w_cfg : LeaderConfig := { required_nodes := ["orb"], alive_timeout := 10 }

/-- Witness for the amended C10 at a concrete failing state. -/
theorem c10_witness :
    (c10_st.dbOk = false ∧ c10w_req.node_name ≠ "" ∧ c10w_req.node_type ≠ ""
      ∧ c10w_req.instance_key ≠ "" ∧ c10w_cfg.required_nodes ≠ [])
    ∧ (DiscoverManagerPG.list c10_st c10w_cfg.alive_timeout = []
    ∧ DiscoverManagerPG.update c10_st c10w_req.node_name c10w_req.node_type
        c10w_req.instance_key = (false, c10_st)
    ∧ Leader.ready c10w_cfg c10_st = false
    ∧ Leader.get_list c10w_cfg c10_st
        = Except.error "Leader is not ready to start"
    ∧ im_alive c10_st c10w_req
        = (Except.error { code := 500, detail := "Failed to update node" },
           c10_st)) :=
  ⟨⟨rfl, by decide, by decide, by decide, by decide⟩,
    c10_db_error_behaviour c10w_cfg c10_st c10w_req rfl (by decide) (by decide)
      (by decide) (by decide)⟩

/-! ## Signaling hub

Embedding of src/services/signaling/internal/message_storage.py,
src/services/signaling/internal/signaling.py and
src/services/signaling/internal/data_types.py. -/

/-- The EventData dataclass as built by the push handler. The handler
passes dynamically typed values through, so every field except the
timestamp is a json value (Python None is jnull). -/
structure EventData where
  event_type : JVal
  payload : JVal
  timestamp : Int
  source : JVal
  tags : JVal
  affected : JVal
deriving Repr

/-- A row of the signaling_events table: eid serial, text type and owner,
jsonb payload and affected (jnull for SQL NULL), tags array. -/
structure EventRow where
  eid : Int
  type : String
  payload : JVal
  affected : JVal
  ctime : Int
  owner : String
  tags : JVal
deriving Repr

/-- Signaling-hub state: the event table with its eid sequence, the
in-memory self.events list, and whether the database statement succeeds
(false makes create_event raise). -/
structure SigState where
  table : List EventRow
  nextEid : Int
  memEvents : List EventData
  dbOk : Bool
deriving Repr

/-- A raised Python exception, as far as the embedding distinguishes
them. -/
inductive PyError where
  | typeError : String → PyError
deriving Repr, DecidableEq

/-- MessageStorage.create_event: owner defaults to ownerless when the
source is falsy, payload and affected become NULL when falsy, the insert
returns the assigned serial eid; a failing statement raises. -/
def MessageStorage.create_event (st : SigState) (e : EventData) :
    Except Unit (Int × SigState) :=
  if !st.dbOk then Except.error ()
  else
    let owner := if e.source.truthy then e.source.asText else "ownerless"
    let row : EventRow :=
      { eid := st.nextEid, type := e.event_type.asText,
        payload := if e.payload.truthy then e.payload else JVal.jnull,
        affected := if e.affected.truthy then e.affected else JVal.jnull,
        ctime := e.timestamp, owner := owner, tags := e.tags }
    Except.ok (st.nextEid,
      { st with table := st.table ++ [row], nextEid := st.nextEid + 1 })

/-- Argument values of a dynamic Python call. -/
inductive PyArg where
  | ev : EventData → PyArg
  | num : Int → PyArg

/-- Python call semantics for Signaling.notify_subscribers, whose
definition takes a single event parameter besides self: a call whose
argument list is not exactly one event raises TypeError before the body
runs; with one event argument the publish callback receives the event. -/
def callNotifySubscribers : List PyArg → Except PyError (List EventData)
  | [PyArg.ev e] => Except.ok [e]
  | _ => Except.error (PyError.typeError
      "notify_subscribers() takes 2 positional arguments but 3 were given")

/-- Outcome of the push handler: the state after all performed side
effects, the events handed to the publish callback, and either the reply
dict or a propagated exception. -/
structure PushOutcome where
  state : SigState
  published : List EventData
  reply : Except PyError JVal
deriving Repr

/-- Signaling.handle_push_event: read the request fields (tags and
affected are read from the source key, as in the source), reject a falsy
event_type, append to the in-memory list, store through create_event
(answering failed if it raises), then call notify_subscribers with two
arguments, and finally answer with status success under key event_id. -/
def Signaling.handle_push_event (st : SigState) (now : Int) (data : PyDict) :
    PushOutcome :=
  let event_type := (dictGet data "event_type").getD JVal.jnull
  let payload := dictGetD data "payload" (JVal.jobj [])
  let source := (dictGet data "source").getD JVal.jnull
  let tags := dictGetD data "source" (JVal.jarr [])
  let affected := dictGetD data "source" (JVal.jarr [])
  if !event_type.truthy then
    { state := st, published := [],
      reply := Except.ok (JVal.jobj
        [("status", JVal.jstr "error"),
         ("message", JVal.jstr "Missing required field: event_type")]) }
  else
    let event : EventData :=
      { event_type := event_type, payload := payload, timestamp := now,
        source := source, tags := tags, affected := affected }
    let st1 := { st with memEvents := st.memEvents ++ [event] }
    match MessageStorage.create_event st1 event with
    | Except.error _ =>
      { state := st1, published := [],
        reply := Except.ok (JVal.jobj [("status", JVal.jstr "failed")]) }
    | Except.ok (eid, st2) =>
      match callNotifySubscribers [PyArg.ev event, PyArg.num eid] with
      | Except.error e =>
        { state := st2, published := [], reply := Except.error e }
      | Except.ok pub =>
        { state := st2, published := pub,
          reply := Except.ok (JVal.jobj
            [("status", JVal.jstr "success"),
             ("event_id", JVal.jnum eid)]) }

/-- Postgres jsonb containment of the one-element array built from a
filter string (affected @> the jsonb array holding the string): true when
the column holds an array with the string among its elements; SQL NULL
and non-array values never match. -/
def jsonbHasStr (v : JVal) (a : String) : Bool :=
  match v with
  | JVal.jarr xs => xs.any (fun x => x.eqStr a)
  | _ => false

/-- Postgres text-array overlap (tags && ARRAY[...]): some filter string
occurs in the column array; SQL NULL never matches. -/
def arrayOverlap (v : JVal) (ts : List String) : Bool :=
  match v with
  | JVal.jarr xs => ts.any (fun t => xs.any (fun x => x.eqStr t))
  | _ => false

/-- The WHERE conditions built by MessageStorage.find_events, appended in
source order: the ctime cutoff always, then one condition per supplied
(nonempty) filter list. -/
def MessageStorage.find_events_conds (timestamp : Int)
    (types sources affected tags : List String) : List (EventRow → Bool) :=
  ([fun r => decide (timestamp ≤ r.ctime)] : List (EventRow → Bool))
  ++ (if types.isEmpty then [] else [fun r => types.contains r.type])
  ++ (if sources.isEmpty then [] else [fun r => sources.contains r.owner])
  ++ (if affected.isEmpty then [] else
      [fun r => affected.any (fun a => jsonbHasStr r.affected a)])
  ++ (if tags.isEmpty then [] else [fun r => arrayOverlap r.tags tags])

/-- MessageStorage.find_events: rows satisfying every built condition,
ordered by ctime descending; the LIMIT clause is appended only when
limit is positive. -/
def MessageStorage.find_events (st : SigState) (timestamp : Int)
    (types sources affected tags : List String) (limit : Int) :
    List EventRow :=
  let conds := MessageStorage.find_events_conds timestamp types sources
    affected tags
  let rows := sortDesc (fun r => r.ctime)
    (st.table.filter (fun r => conds.all (fun c => c r)))
  if 0 < limit then rows.take limit.toNat else rows

/-- Browse matching as the specification words it: ctime at or after the
timestamp, and every supplied filter matched - types by equality, sources
by equality on owner, affected by json-array containment, tags by array
overlap. -/
def browseMatchesSpec (timestamp : Int)
    (types sources affected tags : List String) (r : EventRow) : Bool :=
  (decide (timestamp ≤ r.ctime))
  && (types.isEmpty || types.contains r.type)
  && (sources.isEmpty || sources.contains r.owner)
  && (affected.isEmpty || affected.any (fun a => jsonbHasStr r.affected a))
  && (tags.isEmpty || arrayOverlap r.tags tags)

/-! ### The browse validator -/

/-- A browse request after json decoding (data_types.BrowseRequest). -/
structure BrowseRequest where
  event_types : List String
  timestamp : Int
  sources : List String
  affected : List String
  tags : List String
  limit : Int := 0
deriving Repr

/-- Word characters of the regex word class: letters, digits and
underscore. -/
def isWordChar (c : Char) : Bool := c.isAlphanum || c = '_'

/-- Caseless match of the pattern (given lowercase) against the head of
the text; returns the remaining text on success. -/
def caselessDrop : List Char → List Char → Option (List Char)
  | s, [] => some s
  | [], _ :: _ => none
  | c :: s, k :: ks => if c.toLower = k then caselessDrop s ks else none

/-- A word boundary follows here: end of text or a non-word character. -/
def boundaryNext : List Char → Bool
  | [] => true
  | c :: _ => !isWordChar c

/-- The keyword matches at the head of the text with a word boundary
right after it. -/
def wordAt (s k : List Char) : Bool :=
  match caselessDrop s k with
  | some rest => boundaryNext rest
  | none => false

/-- Search for a boundary-delimited, case-insensitive occurrence of the
keyword; the boolean tracks whether the previous character is a word
character (no boundary before this position then). -/
def wordSearch (k : List Char) : Bool → List Char → Bool
  | _, [] => false
  | prevWord, c :: rest =>
    (!prevWord && wordAt (c :: rest) k) || wordSearch k (isWordChar c) rest

/-- Case-insensitive whole-word occurrence of the keyword in the value. -/
def wordOccurs (v k : String) : Bool :=
  wordSearch (k.data.map Char.toLower) false v.data

/-- The keywords of the deny-list regex with the optional groups
expanded: INSERT with optional INTO and UNION with optional ALL already
match on the bare keyword (the following space is a word boundary), and
EXEC with optional UTE contributes both spellings. -/
def sqlKeywords : List String :=
  ["alter", "create", "delete", "drop", "exec", "execute", "insert",
   "merge", "select", "update", "union", "or", "and"]

/-- The single-quote character of the deny-list character class. -/
def quoteChar : Char := Char.ofNat 39

/-- The given characters start the text. -/
def beginsWithChars : List Char → List Char → Bool
  | _, [] => true
  | [], _ :: _ => false
  | c :: s, d :: t => (c = d) && beginsWithChars s t

/-- The given characters occur contiguously somewhere in the text. -/
def hasSubChars : List Char → List Char → Bool
  | [], sub => sub.isEmpty
  | c :: rest, sub => beginsWithChars (c :: rest) sub || hasSubChars rest sub

/-- Substring occurrence between strings. -/
def containsSub (s sub : String) : Bool := hasSubChars s.data sub.data

/-- The deny-list regex of BrowseRequest.is_valid: a whole-word SQL
keyword; one of the characters quote, semicolon, backslash, hyphen; the
comment delimiters slash-star, star-slash, double-hyphen; double-at; or a
single at sign. -/
def sqlPatternHit (v : String) : Bool :=
  sqlKeywords.any (fun k => wordOccurs v k)
  || v.data.any (fun c => c = quoteChar || c = ';' || c = '\\' || c = '-')
  || containsSub v "/*" || containsSub v "*/" || containsSub v "--"
  || containsSub v "@@" || v.data.any (fun c => c = '@')

/-- BrowseRequest.is_valid: scan the four string-list fields; any value
matched by the deny-list regex invalidates the request. -/
def BrowseRequest.is_valid (r : BrowseRequest) : Bool :=
  [r.event_types, r.sources, r.affected, r.tags].all
    (fun fld => fld.all (fun v => !sqlPatternHit v))

/-- A value contains one of the deny-listed SQL metacharacters: quote,
semicolon, backslash, hyphen, at sign, or a comment delimiter. -/
def hasSqlMetachar (v : String) : Bool :=
  v.data.any (fun c =>
    c = quoteChar || c = ';' || c = '\\' || c = '-' || c = '@')
  || containsSub v "/*" || containsSub v "*/"

/-- Modelled from the spec: the controller object wired between the HTTP
route /v1/browse and MessageStorage.find_events (main.py obtains it from
the ZeroMQ server object, whose definition with the browse method is not
under src/); per the spec the query "is validated against a deny-list of
SQL metacharacters before parameters are bound". -/
def Signaling.browse (st : SigState) (r : BrowseRequest) :
    Except String (List EventRow) :=
  if r.is_valid then
    Except.ok (MessageStorage.find_events st r.timestamp r.event_types
      r.sources r.affected r.tags r.limit)
  else Except.error "invalid browse request"

/-! ## Claim theorems: signaling hub -/

theorem isSortedDesc_take {α : Type} (key : α → Int) :
    ∀ (l : List α) (n : Nat), isSortedDesc key l = true →
      isSortedDesc key (l.take n) = true := by
  intro l
  induction l with
  | nil => intro n _; rw [List.take_nil]; rfl
  | cons x xs ih =>
    intro n h
    cases n with
    | zero => rfl
    | succ m =>
      rw [List.take_succ_cons]
      apply isSortedDesc_cons
      · exact ih m (isSortedDesc_tail key x xs h)
      · intro a ha
        exact sorted_head_ge key x a xs h (List.take_subset m xs ha)

/-- C6: the history query returns exactly the stored events with ctime at
or after the timestamp matching every supplied filter (types by equality,
sources by equality on owner, affected by json-array containment, tags by
array overlap), ordered by ctime descending; with limit 0 no truncation
is applied, and with positive limit the result is the truncation to limit
events (so at most limit are returned). -/
theorem c6_find_events_spec (st : SigState) (timestamp : Int)
    (types sources affected tags : List String) (limit : Int) :
    MessageStorage.find_events st timestamp types sources affected tags limit
      = (if 0 < limit then
          (sortDesc (fun r => r.ctime) (st.table.filter
            (browseMatchesSpec timestamp types sources affected tags))).take
            limit.toNat
         else sortDesc (fun r => r.ctime) (st.table.filter
            (browseMatchesSpec timestamp types sources affected tags)))
    ∧ isSortedDesc (fun r => r.ctime)
        (MessageStorage.find_events st timestamp types sources affected tags
          limit) = true
    ∧ (MessageStorage.find_events st timestamp types sources affected tags
          limit).length
        = (if 0 < limit then
            min limit.toNat (st.table.filter
              (browseMatchesSpec timestamp types sources affected tags)).length
           else (st.table.filter
              (browseMatchesSpec timestamp types sources affected tags)).length) := by
  have hpt : ∀ r : EventRow,
      ((MessageStorage.find_events_conds timestamp types sources affected
        tags).all (fun c => c r))
      = browseMatchesSpec timestamp types sources affected tags r := by
    intro r
    unfold MessageStorage.find_events_conds browseMatchesSpec
    by_cases h1 : types.isEmpty <;> by_cases h2 : sources.isEmpty <;>
      by_cases h3 : affected.isEmpty <;> by_cases h4 : tags.isEmpty <;>
      simp [h1, h2, h3, h4, List.all_append, Bool.and_assoc]
  have hfe : st.table.filter (fun r =>
        (MessageStorage.find_events_conds timestamp types sources affected
          tags).all (fun c => c r))
      = st.table.filter
        (browseMatchesSpec timestamp types sources affected tags) :=
    List.filter_congr (fun a _ => hpt a)
  have hfind : MessageStorage.find_events st timestamp types sources affected
      tags limit
      = (if 0 < limit then
          (sortDesc (fun r => r.ctime) (st.table.filter
            (browseMatchesSpec timestamp types sources affected tags))).take
            limit.toNat
         else sortDesc (fun r => r.ctime) (st.table.filter
            (browseMatchesSpec timestamp types sources affected tags))) := by
    simp only [MessageStorage.find_events]
    rw [hfe]
  refine ⟨hfind, ?_, ?_⟩
  · rw [hfind]
    by_cases hl : 0 < limit
    · rw [if_pos hl]
      exact isSortedDesc_take _ _ _ (isSortedDesc_sortDesc _ _)
    · rw [if_neg hl]
      exact isSortedDesc_sortDesc _ _
  · rw [hfind]
    by_cases hl : 0 < limit
    · rw [if_pos hl, if_pos hl, List.length_take, length_sortDesc]
    · rw [if_neg hl, if_neg hl, length_sortDesc]

/-- Fresh working signaling state for the C3 evaluation. -/
def c3_st : SigState := { table := [], nextEid := 1, memEvents := [], dbOk := true }

/-- Signaling state whose insert statement fails, for the C3 evaluation. -/
def c3_stBad : SigState := { table := [], nextEid := 1, memEvents := [], dbOk := false }

/-- Well-formed push request for the C3 evaluation. -/
def c3_req : PyDict :=
  [("event_type", JVal.jstr "alpha"), ("payload", JVal.jobj [("k", JVal.jnum 1)])]

/-- C3: on a well-formed push with working storage the handler persists
the event and then raises TypeError at the two-argument call of
notify_subscribers (whose definition takes one event argument), so the
reply claimed by the spec is never produced and nothing is published;
when the append to the event table fails the reply is the failed dict,
nothing is persisted and nothing is published. -/
theorem c3_push_success_path_raises :
    (Signaling.handle_push_event c3_st 5 c3_req).reply
      = Except.error (PyError.typeError
          "notify_subscribers() takes 2 positional arguments but 3 were given")
    ∧ (Signaling.handle_push_event c3_st 5 c3_req).state.table.length = 1
    ∧ (Signaling.handle_push_event c3_st 5 c3_req).published = []
    ∧ (Signaling.handle_push_event c3_stBad 5 c3_req).reply
      = Except.ok (JVal.jobj [("status", JVal.jstr "failed")])
    ∧ (Signaling.handle_push_event c3_stBad 5 c3_req).state.table = []
    ∧ (Signaling.handle_push_event c3_stBad 5 c3_req).published = [] :=
  ⟨rfl, rfl, rfl, rfl, rfl, rfl⟩

/-- Push request omitting the message field (while naming an event type
and a payload), for the C7 counterexample. -/
def c7_req : PyDict :=
  [("type", JVal.jstr "push"), ("client_id", JVal.jstr "c1"),
   ("event_type", JVal.jstr "alpha"), ("payload", JVal.jobj [("k", JVal.jnum 1)])]

/-- Fresh working signaling state for the C7 counterexample. -/
def c7_st : SigState := { table := [], nextEid := 1, memEvents := [], dbOk := true }

/-- C7 counterexample: a push omitting the message field is not answered
with the Missing-required-field-message error, and an event is persisted
anyway: the handler never consults the message field. -/
theorem c7_counterexample :
    dictGet c7_req "message" = none
    ∧ (Signaling.handle_push_event c7_st 5 c7_req).state.table.length = 1
    ∧ (Signaling.handle_push_event c7_st 5 c7_req).reply
        ≠ Except.ok (JVal.jobj
            [("status", JVal.jstr "error"),
             ("message", JVal.jstr "Missing required field: message")]) := by
  refine ⟨rfl, rfl, ?_⟩
  intro h
  rw [show (Signaling.handle_push_event c7_st 5 c7_req).reply
      = Except.error (PyError.typeError
          "notify_subscribers() takes 2 positional arguments but 3 were given")
    from rfl] at h
  exact Except.noConfusion h

/-- C7 (amended): the handler validates event_type, not message: a push
whose event_type is missing or falsy receives the error dict
Missing-required-field-event_type, and no event is persisted, appended in
memory, or published; omitting only the message field is not rejected. -/
theorem c7_missing_event_type (st : SigState) (now : Int) (data : PyDict)
    (h : ((dictGet data "event_type").getD JVal.jnull).truthy = false) :
    Signaling.handle_push_event st now data
      = { state := st, published := [],
          reply := Except.ok (JVal.jobj
            [("status", JVal.jstr "error"),
             ("message", JVal.jstr "Missing required field: event_type")]) } := by
  unfold Signaling.handle_push_event
  simp [h]

/-- Push request with no event_type at all, for the C7 witness. -/
def c7w_req : PyDict := [("message", JVal.jobj [("k", JVal.jnum 1)])]

/-- Witness for the amended C7 at a concrete request. -/
theorem c7_witness :
    ((dictGet c7w_req "event_type").getD JVal.jnull).truthy = false
    ∧ Signaling.handle_push_event c7_st 5 c7w_req
      = { state := c7_st, published := [],
          reply := Except.ok (JVal.jobj
            [("status", JVal.jstr "error"),
             ("message", JVal.jstr "Missing required field: event_type")]) } :=
  ⟨rfl, c7_missing_event_type c7_st 5 c7w_req rfl⟩

/-- C8: a browse request one of whose filter string values contains a
deny-listed SQL metacharacter fails the validator, and the (spec-modelled)
browse controller rejects the request before find_events sees any
parameter. -/
theorem c8_metachar_rejected (st : SigState) (r : BrowseRequest) (v : String)
    (hv : v ∈ r.event_types ++ r.sources ++ r.affected ++ r.tags)
    (hm : hasSqlMetachar v = true) :
    r.is_valid = false
    ∧ Signaling.browse st r = Except.error "invalid browse request" := by
  have hhit : sqlPatternHit v = true := by
    unfold hasSqlMetachar at hm
    rcases Bool.or_eq_true_iff.mp hm with hm1 | hsub2
    · rcases Bool.or_eq_true_iff.mp hm1 with hchr | hsub1
      · rcases List.any_eq_true.mp hchr with ⟨c, hc, hcp⟩
        simp only [Bool.or_eq_true, decide_eq_true_eq] at hcp
        rcases hcp with ((((hq | hsemi) | hbs) | hyph) | hat)
        · have hb : v.data.any (fun c =>
              c = quoteChar || c = ';' || c = '\\' || c = '-') = true :=
            List.any_eq_true.mpr ⟨c, hc, by simp [hq]⟩
          simp [sqlPatternHit, hb]
        · have hb : v.data.any (fun c =>
              c = quoteChar || c = ';' || c = '\\' || c = '-') = true :=
            List.any_eq_true.mpr ⟨c, hc, by simp [hsemi]⟩
          simp [sqlPatternHit, hb]
        · have hb : v.data.any (fun c =>
              c = quoteChar || c = ';' || c = '\\' || c = '-') = true :=
            List.any_eq_true.mpr ⟨c, hc, by simp [hbs]⟩
          simp [sqlPatternHit, hb]
        · have hb : v.data.any (fun c =>
              c = quoteChar || c = ';' || c = '\\' || c = '-') = true :=
            List.any_eq_true.mpr ⟨c, hc, by simp [hyph]⟩
          simp [sqlPatternHit, hb]
        · have hb : v.data.any (fun c => c = '@') = true :=
            List.any_eq_true.mpr ⟨c, hc, by simp [hat]⟩
          simp [sqlPatternHit, hb]
      · simp [sqlPatternHit, hsub1]
    · simp [sqlPatternHit, hsub2]
  have hinv : r.is_valid = false := by
    cases hval : r.is_valid with
    | false => rfl
    | true =>
      exfalso
      unfold BrowseRequest.is_valid at hval
      simp only [List.all_cons, List.all_nil, Bool.and_eq_true,
        Bool.and_true] at hval
      obtain ⟨h1, h2, h3, h4⟩ := hval
      have hbad : (!sqlPatternHit v) = true := by
        rcases List.mem_append.mp hv with hv123 | hv4
        · rcases List.mem_append.mp hv123 with hv12 | hv3
          · rcases List.mem_append.mp hv12 with hv1 | hv2
            · exact List.all_eq_true.mp h1 v hv1
            · exact List.all_eq_true.mp h2 v hv2
          · exact List.all_eq_true.mp h3 v hv3
        · exact List.all_eq_true.mp h4 v hv4
      rw [hhit] at hbad
      simp at hbad
  exact ⟨hinv, by simp [Signaling.browse, hinv]⟩

/-- Browse request carrying a semicolon in a sources value, for the C8
witness. -/
def c8w_req : BrowseRequest :=
  { event_types := [], timestamp := 0, sources := ["a;b"], affected := [],
    tags := [] }

/-- Empty signaling state for the C8 witness. -/
def c8w_st : SigState := { table := [], nextEid := 1, memEvents := [], dbOk := true }

/-- Witness for C8 at a concrete request holding a semicolon. -/
theorem c8_witness :
    ("a;b" ∈ c8w_req.event_types ++ c8w_req.sources ++ c8w_req.affected
        ++ c8w_req.tags
      ∧ hasSqlMetachar "a;b" = true)
    ∧ (c8w_req.is_valid = false
      ∧ Signaling.browse c8w_st c8w_req
          = Except.error "invalid browse request") :=
  ⟨⟨by decide, by decide⟩,
    c8_metachar_rejected c8w_st c8w_req "a;b" (by decide) (by decide)⟩

/-! ## Signaling client

Embedding of the receive path of src/lunaricorn/api/signaling/client.py. -/

/-- Exceptions of the client receive path. -/
inductive ClientError where
  | typeError : String → ClientError
  | nameError : String → ClientError
deriving Repr, DecidableEq

/-- The ClientEventData record built by the receive path; every field is
the dynamic value taken from the frame (get of an absent key is none). -/
structure ClientEventData where
  eid : JVal
  event_type : JVal
  payload : JVal
  timestamp : JVal
  source : Option JVal
  affected : Option JVal
  tags : Option JVal
deriving Repr

/-- SignalingClient._event_wanted: the event is kept when some watched
type is the wildcard or equals the event type. -/
def SignalingClient.eventWanted (watched : List String)
    (e : ClientEventData) : Bool :=
  watched.any (fun wt => wt = "*" || e.event_type.eqStr wt)

/-- Python call semantics for SignalingClient._event_wanted, declared
with one event parameter besides self: a call whose argument list is not
exactly one event raises TypeError before the body runs. -/
def SignalingClient.callEventWanted (watched : List String) :
    List ClientEventData → Except ClientError Bool
  | [e] => Except.ok (SignalingClient.eventWanted watched e)
  | _ => Except.error (ClientError.typeError
      "_event_wanted() missing 1 required positional argument: event")

/-- Outcome of the event handler: the sink invocations it performed, and
the returned value (an error dict or None) or the raised exception. -/
structure HandleEventOutcome where
  sinkCalls : List ClientEventData
  result : Except ClientError (Option JVal)
deriving Repr

/-- SignalingClient._handle_event: check the required fields in order
(type, payload, eid), build the typed record (source is read from the
creator-id key), then call _event_wanted with no argument; if that
returned, the bare name subscribe_callback (an unbound local in the
source) would raise NameError before any sink call. -/
def SignalingClient.handle_event (watched : List String) (now : Int)
    (event_data : PyDict) : HandleEventOutcome :=
  if !dictHas event_data "type" then
    { sinkCalls := [], result := Except.ok (some (JVal.jobj
        [("status", JVal.jstr "error"),
         ("message", JVal.jstr "Missing required field: type")])) }
  else if !dictHas event_data "payload" then
    { sinkCalls := [], result := Except.ok (some (JVal.jobj
        [("status", JVal.jstr "error"),
         ("message", JVal.jstr "Missing required field: payload")])) }
  else if !dictHas event_data "eid" then
    { sinkCalls := [], result := Except.ok (some (JVal.jobj
        [("status", JVal.jstr "error"),
         ("message", JVal.jstr "Missing required field: eid")])) }
  else
    let data : ClientEventData :=
      { eid := (dictGet event_data "eid").getD JVal.jnull,
        event_type := (dictGet event_data "type").getD JVal.jnull,
        payload := (dictGet event_data "payload").getD JVal.jnull,
        timestamp := dictGetD event_data "timestamp" (JVal.jnum now),
        source := dictGet event_data "creator-id",
        affected := dictGet event_data "affected",
        tags := dictGet event_data "tags" }
    match SignalingClient.callEventWanted watched [] with
    | Except.error e => { sinkCalls := [], result := Except.error e }
    | Except.ok wanted =>
      if !wanted then { sinkCalls := [], result := Except.ok none }
      else
        { sinkCalls := [],
          result := Except.error (ClientError.nameError
            "name subscribe_callback is not defined") }

/-- Well-formed event frame carrying the three required fields, for the
C9 evaluation. -/
def c9_frame : PyDict :=
  [("type", JVal.jstr "alpha"), ("payload", JVal.jobj [("k", JVal.jnum 1)]),
   ("eid", JVal.jnum 7), ("timestamp", JVal.jnum 3)]

/-- C9: the receive path never invokes the caller-supplied sink: for
every frame the handler either returns a missing-field error dict or
reaches the zero-argument call of _event_wanted, which raises TypeError;
at a concrete well-formed frame with the wildcard watched set (where the
claim requires a sink call, and the filter itself would keep the event)
the handler raises and performs no sink call. -/
theorem c9_sink_never_called :
    (∀ (watched : List String) (now : Int) (frame : PyDict),
      (SignalingClient.handle_event watched now frame).sinkCalls = [])
    ∧ SignalingClient.eventWanted ["*"]
        { eid := JVal.jnum 7, event_type := JVal.jstr "alpha",
          payload := JVal.jobj [("k", JVal.jnum 1)],
          timestamp := JVal.jnum 3, source := none, affected := none,
          tags := none } = true
    ∧ (SignalingClient.handle_event ["*"] 3 c9_frame).result
        = Except.error (ClientError.typeError
            "_event_wanted() missing 1 required positional argument: event")
    ∧ (SignalingClient.handle_event ["*"] 3 c9_frame).sinkCalls = [] := by
  refine ⟨?_, rfl, rfl, rfl⟩
  intro watched now frame
  by_cases h1 : dictHas frame "type" <;>
    by_cases h2 : dictHas frame "payload" <;>
    by_cases h3 : dictHas frame "eid" <;>
    simp [SignalingClient.handle_event, h1, h2, h3,
      SignalingClient.callEventWanted]

/-! ## Orb storage

Embedding of src/services/orb/internal/orb_types.py and the push path of
src/services/orb/internal/storage.py; the fetch operations referenced by
src/services/orb/grpc_app.py are modelled from the spec. -/

/-- Uuid values: fresh uuid7 values are drawn from a counter in the
state; caller-supplied uuids are arbitrary numbers. -/
abbrev UUID := Nat

/-- The orb_types.OrbDataObject dataclass (with the LunaObject fields it
inherits). -/
structure OrbDataObj where
  u : Option UUID
  type : String
  src : Option String
  data : Option JVal
  chain_left : Option UUID
  chain_right : Option UUID
  parent : Option UUID
  ctime : Int
  flags : List String
  subtype : String
deriving Repr

/-- Constructing an orb_types.OrbDataObject: dataclass field assignment
followed by its post-init hook, which sets type to "@OrbData" and
overwrites chain_left, chain_right and parent with None, discarding the
caller-supplied values. -/
def OrbDataObj.make (u : Option UUID) (src : Option String)
    (data : Option JVal) (chain_left chain_right parent : Option UUID)
    (ctime : Int) (flags : List String) (subtype : String) : OrbDataObj :=
  { u := u, type := "@OrbData", src := src, data := data,
    chain_left := none, chain_right := none, parent := none,
    ctime := ctime, flags := flags, subtype := subtype }

/-- A row of the orb_data table as written by OrbDataObject.to_record. -/
structure OrbDataRow where
  u : Option UUID
  ctime : Int
  data_type : String
  chain_left : Option UUID
  chain_right : Option UUID
  parent : Option UUID
  flags : List String
  src : Option String
  data : JVal
deriving Repr

/-- OrbDataObject.to_record: subtype into the data_type column, chains
and src copied (a uuid object is never falsy), flags as the json list,
and the data blob only when it is a dict, else the empty json object. -/
def OrbDataObj.to_record (o : OrbDataObj) : OrbDataRow :=
  { u := o.u, ctime := o.ctime, data_type := o.subtype,
    chain_left := o.chain_left, chain_right := o.chain_right,
    parent := o.parent, flags := o.flags, src := o.src,
    data := match o.data with
      | some (JVal.jobj fs) => JVal.jobj fs
      | _ => JVal.jobj [] }

/-- The orb_types.OrbMetaObject dataclass (with the MetaObject and
LunaObject fields it inherits). -/
structure OrbMetaObj where
  id : Int
  u : Option UUID
  type : String
  handle : Option Int
  ctime : Int
  flags : List String
deriving Repr, DecidableEq

/-- A row of the orb_meta table as written by push_meta; the handle is
stored under the src column by the source. -/
structure OrbMetaRow where
  id : Int
  data_type : String
  flags : List String
  src : Option Int
  u : Option UUID
  ctime : Int
deriving Repr, DecidableEq

/-- A signaling event as emitted by DataStorage.notify_signaling: the
operation value as event type, the payload dict of stringified id and
uuid, the ORB agent id as source and the single tag orb. -/
structure OrbSigEvent where
  event_type : String
  payload_id : String
  payload_uuid : String
  source : String
  tags : List String
deriving Repr, DecidableEq

/-- Orb storage state: both tables, the orb_meta id sequence, the uuid7
supply, the wall clock, the log of emitted signaling events, and the
database flags (dbOk covers db_enabled, writeOk whether the SQL write
statements succeed). -/
structure OrbState where
  dataTable : List OrbDataRow
  metaTable : List OrbMetaRow
  metaNextId : Int
  uuidCtr : UUID
  now : Int
  events : List OrbSigEvent
  dbOk : Bool
  writeOk : Bool
deriving Repr

/-- Draw a fresh uuid7 from the supply. -/
def genUuid (st : OrbState) : UUID × OrbState :=
  (st.uuidCtr, { st with uuidCtr := st.uuidCtr + 1 })

/-- str() of an optional uuid. -/
def pyStrOptU : Option UUID → String
  | none => "None"
  | some n => toString n

/-- str() of an integer id. -/
def pyStrId (n : Int) : String := toString n

/-- Errors raised by the orb storage. -/
inductive OrbError where
  | broken : OrbError
  | storage : OrbError
deriving Repr, DecidableEq

/-- DataStorage.notify_signaling: push one signaling event of the given
operation with the stringified id and uuid as payload, source ORB and tag
orb. -/
def DataStorage.notify_signaling (st : OrbState) (op : String)
    (idTxt uuidTxt : String) : OrbState :=
  { st with events := st.events ++
      [{ event_type := op, payload_id := idTxt, payload_uuid := uuidTxt,
         source := "ORB", tags := ["orb"] }] }

/-- DataStorage.create_record on orb_data (INSERT ... RETURNING u): a
failing statement raises; otherwise the row is appended and its u column
returned. -/
def createDataRecord (st : OrbState) (row : OrbDataRow) :
    Except OrbError (Option UUID × OrbState) :=
  if !st.writeOk then Except.error OrbError.storage
  else Except.ok (row.u, { st with dataTable := st.dataTable ++ [row] })

/-- DataStorage.update_record on orb_data (UPDATE ... WHERE u = key):
False when the statement raises; otherwise True - also when no row
matches - overwriting every matching row with the new column values. -/
def updateDataRecord (st : OrbState) (key : Option UUID) (row : OrbDataRow) :
    Bool × OrbState :=
  if !st.writeOk then (false, st)
  else
    (true,
     { st with
       dataTable := st.dataTable.map (fun r => if r.u = key then row else r) })

/-- Outcome of push_data: the state after all performed side effects and
either the returned object or the raised error. -/
structure PushDataOutcome where
  state : OrbState
  result : Except OrbError OrbDataObj
deriving Repr

/-- DataStorage.push_data: the record counts as new when its u is None or
equals a freshly drawn uuid7 (the comparison consumes one supply value);
a new record gets the next fresh uuid7 and the current time, is inserted,
and a FileOp_new event is emitted with the record uuid as both payload
fields; otherwise the row with that u is updated and a FileOp_update
event is emitted; a failing insert or update raises StorageError after
the write attempt, emitting nothing. -/
def DataStorage.push_data (st0 : OrbState) (obj0 : OrbDataObj) :
    PushDataOutcome :=
  if !st0.dbOk then { state := st0, result := Except.error OrbError.broken }
  else
    let (fresh, st1) := genUuid st0
    let isNew := (obj0.u == none) || (obj0.u == some fresh)
    let (obj1, st2) :=
      if isNew then
        let (u2, st2a) := genUuid st1
        ({ obj0 with u := some u2, ctime := st1.now }, st2a)
      else (obj0, st1)
    let row := obj1.to_record
    if isNew then
      match createDataRecord st2 row with
      | Except.error _ =>
        { state := st2, result := Except.error OrbError.storage }
      | Except.ok (newId, st3) =>
        let obj2 := { obj1 with u := newId }
        let st4 := DataStorage.notify_signaling st3 "FileOp_new"
          (pyStrOptU obj2.u) (pyStrOptU obj2.u)
        { state := st4, result := Except.ok obj2 }
    else
      match updateDataRecord st2 obj1.u row with
      | (false, st3) =>
        { state := st3, result := Except.error OrbError.storage }
      | (true, st3) =>
        let st4 := DataStorage.notify_signaling st3 "FileOp_update"
          (pyStrOptU obj1.u) (pyStrOptU obj1.u)
        { state := st4, result := Except.ok obj1 }

/-- Outcome of push_meta. -/
structure PushMetaOutcome where
  state : OrbState
  result : Except OrbError OrbMetaObj
deriving Repr

/-- DataStorage.create_record on orb_meta (INSERT ... RETURNING id): a
failing statement raises; otherwise the row is appended with the next
serial id, which is returned. -/
def createMetaRecord (st : OrbState) (data_type : String)
    (flags : List String) (src : Option Int) (u : Option UUID) (ctime : Int) :
    Except OrbError (Int × OrbState) :=
  if !st.writeOk then Except.error OrbError.storage
  else
    Except.ok (st.metaNextId, { st with
      metaTable := st.metaTable ++
        [{ id := st.metaNextId, data_type := data_type, flags := flags,
           src := src, u := u, ctime := ctime }],
      metaNextId := st.metaNextId + 1 })

/-- DataStorage.update_record on orb_meta (UPDATE ... WHERE id = key):
False when the statement raises; otherwise True, overwriting the listed
columns of every matching row. -/
def updateMetaRecord (st : OrbState) (key : Int) (data_type : String)
    (flags : List String) (src : Option Int) (u : Option UUID) (ctime : Int) :
    Bool × OrbState :=
  if !st.writeOk then (false, st)
  else
    (true,
     { st with
       metaTable := st.metaTable.map (fun r =>
         if r.id = key then
           { id := r.id, data_type := data_type, flags := flags, src := src,
             u := u, ctime := ctime }
         else r) })

/-- DataStorage.push_meta: the column dict takes data_type from the
getattr default (the dataclass has no such attribute, so always @json),
stores the handle under the src column, copies u (drawing and discarding
a uuid7 as the eagerly evaluated getattr default) and stamps the time; an
id at most zero means insert under the next serial id, anything else an
update of the row with that id; one event is emitted after a successful
write, none on failure. -/
def DataStorage.push_meta (st0 : OrbState) (m : OrbMetaObj) :
    PushMetaOutcome :=
  if !st0.dbOk then { state := st0, result := Except.error OrbError.broken }
  else
    let (_, st1) := genUuid st0
    if decide (m.id ≤ 0) then
      match createMetaRecord st1 "@json" m.flags m.handle m.u st1.now with
      | Except.error _ =>
        { state := st1, result := Except.error OrbError.storage }
      | Except.ok (newId, st2) =>
        let m2 := { m with id := newId }
        let st3 := DataStorage.notify_signaling st2 "FileOp_new"
          (pyStrId m2.id) (pyStrOptU m.u)
        { state := st3, result := Except.ok m2 }
    else
      match updateMetaRecord st1 m.id "@json" m.flags m.handle m.u st1.now with
      | (false, st2) =>
        { state := st2, result := Except.error OrbError.storage }
      | (true, st2) =>
        let st3 := DataStorage.notify_signaling st2 "FileOp_update"
          (pyStrId m.id) (pyStrOptU m.u)
        { state := st3, result := Except.ok m }

/-- Modelled from the spec: DataStorage.fetch_data is called by the orb
servers (grpc_app.py FetchOrbData and FetchData) but its definition is
not under src/; spec 4.6: fetch_data / fetch_meta are a single-row lookup
returning null when absent. -/
def DataStorage.fetch_data (st : OrbState) (u : UUID) : Option OrbDataRow :=
  st.dataTable.find? (fun r => r.u == some u)

/-- Modelled from the spec: single-row orb_meta lookup by id, null when
absent. -/
def DataStorage.fetch_meta (st : OrbState) (id : Int) : Option OrbMetaRow :=
  st.metaTable.find? (fun r => r.id == id)

/-! ## Claim theorems: orb storage -/

/-- An orb signaling event with the fixed ORB source and orb tag. -/
def mkOrbEvent (op idTxt uuidTxt : String) : OrbSigEvent :=
  { event_type := op, payload_id := idTxt, payload_uuid := uuidTxt,
    source := "ORB", tags := ["orb"] }

theorem push_data_db_error (st : OrbState) (obj : OrbDataObj)
    (hdb : st.dbOk = false) :
    DataStorage.push_data st obj
      = { state := st, result := Except.error OrbError.broken } := by
  simp [DataStorage.push_data, hdb]

theorem push_data_insert (st : OrbState) (obj : OrbDataObj)
    (hdb : st.dbOk = true)
    (hnew : ((obj.u == none) || (obj.u == some st.uuidCtr)) = true)
    (hw : st.writeOk = true) :
    DataStorage.push_data st obj =
      { state :=
          { st with
            uuidCtr := st.uuidCtr + 2,
            dataTable := st.dataTable ++
              [OrbDataObj.to_record { obj with u := some (st.uuidCtr + 1), ctime := st.now }],
            events := st.events ++
              [mkOrbEvent "FileOp_new" (pyStrOptU (some (st.uuidCtr + 1)))
                (pyStrOptU (some (st.uuidCtr + 1)))] },
        result := Except.ok
          { obj with u := some (st.uuidCtr + 1), ctime := st.now } } := by
  simp [DataStorage.push_data, genUuid, createDataRecord,
    DataStorage.notify_signaling, mkOrbEvent, OrbDataObj.to_record,
    hdb, hnew, hw]

theorem push_data_insert_fail (st : OrbState) (obj : OrbDataObj)
    (hdb : st.dbOk = true)
    (hnew : ((obj.u == none) || (obj.u == some st.uuidCtr)) = true)
    (hw : st.writeOk = false) :
    DataStorage.push_data st obj =
      { state := { st with uuidCtr := st.uuidCtr + 2 },
        result := Except.error OrbError.storage } := by
  simp [DataStorage.push_data, genUuid, createDataRecord, hdb, hnew, hw]

theorem push_data_update (st : OrbState) (obj : OrbDataObj)
    (hdb : st.dbOk = true)
    (hnew : ((obj.u == none) || (obj.u == some st.uuidCtr)) = false)
    (hw : st.writeOk = true) :
    DataStorage.push_data st obj =
      { state :=
          { st with
            uuidCtr := st.uuidCtr + 1,
            dataTable := st.dataTable.map
              (fun r => if r.u = obj.u then obj.to_record else r),
            events := st.events ++
              [mkOrbEvent "FileOp_update" (pyStrOptU obj.u)
                (pyStrOptU obj.u)] },
        result := Except.ok obj } := by
  simp [DataStorage.push_data, genUuid, updateDataRecord,
    DataStorage.notify_signaling, mkOrbEvent, hdb, hnew, hw]

theorem push_data_update_fail (st : OrbState) (obj : OrbDataObj)
    (hdb : st.dbOk = true)
    (hnew : ((obj.u == none) || (obj.u == some st.uuidCtr)) = false)
    (hw : st.writeOk = false) :
    DataStorage.push_data st obj =
      { state := { st with uuidCtr := st.uuidCtr + 1 },
        result := Except.error OrbError.storage } := by
  simp [DataStorage.push_data, genUuid, updateDataRecord, hdb, hnew, hw]

theorem push_meta_db_error (st : OrbState) (m : OrbMetaObj)
    (hdb : st.dbOk = false) :
    DataStorage.push_meta st m
      = { state := st, result := Except.error OrbError.broken } := by
  simp [DataStorage.push_meta, hdb]

theorem push_meta_insert (st : OrbState) (m : OrbMetaObj)
    (hdb : st.dbOk = true) (hid : m.id ≤ 0) (hw : st.writeOk = true) :
    DataStorage.push_meta st m =
      { state :=
          { st with
            uuidCtr := st.uuidCtr + 1,
            metaTable := st.metaTable ++
              [{ id := st.metaNextId, data_type := "@json", flags := m.flags,
                 src := m.handle, u := m.u, ctime := st.now }],
            metaNextId := st.metaNextId + 1,
            events := st.events ++
              [mkOrbEvent "FileOp_new" (pyStrId st.metaNextId)
                (pyStrOptU m.u)] },
        result := Except.ok { m with id := st.metaNextId } } := by
  simp [DataStorage.push_meta, genUuid, createMetaRecord,
    DataStorage.notify_signaling, mkOrbEvent, hdb, hid, hw]

theorem push_meta_insert_fail (st : OrbState) (m : OrbMetaObj)
    (hdb : st.dbOk = true) (hid : m.id ≤ 0) (hw : st.writeOk = false) :
    DataStorage.push_meta st m =
      { state := { st with uuidCtr := st.uuidCtr + 1 },
        result := Except.error OrbError.storage } := by
  simp [DataStorage.push_meta, genUuid, createMetaRecord, hdb, hid, hw]

theorem push_meta_update (st : OrbState) (m : OrbMetaObj)
    (hdb : st.dbOk = true) (hid : ¬ m.id ≤ 0) (hw : st.writeOk = true) :
    DataStorage.push_meta st m =
      { state :=
          { st with
            uuidCtr := st.uuidCtr + 1,
            metaTable := st.metaTable.map (fun r =>
              if r.id = m.id then
                { id := r.id, data_type := "@json", flags := m.flags,
                  src := m.handle, u := m.u, ctime := st.now }
              else r),
            events := st.events ++
              [mkOrbEvent "FileOp_update" (pyStrId m.id) (pyStrOptU m.u)] },
        result := Except.ok m } := by
  simp [DataStorage.push_meta, genUuid, updateMetaRecord,
    DataStorage.notify_signaling, mkOrbEvent, hdb, hid, hw]

theorem push_meta_update_fail (st : OrbState) (m : OrbMetaObj)
    (hdb : st.dbOk = true) (hid : ¬ m.id ≤ 0) (hw : st.writeOk = false) :
    DataStorage.push_meta st m =
      { state := { st with uuidCtr := st.uuidCtr + 1 },
        result := Except.error OrbError.storage } := by
  simp [DataStorage.push_meta, genUuid, updateMetaRecord, hdb, hid, hw]

/-- C4: a successful push_data or push_meta emits exactly one signaling
event, appended to the log, tagged orb with source ORB and the
stringified identifiers of the written record as payload, typed
FileOp_new when the operation inserted the record into its table and
FileOp_update when it updated in place; a failed mutation emits no
event. -/
theorem c4_mutation_events (st : OrbState) (obj : OrbDataObj)
    (m : OrbMetaObj) :
    (∀ obj2, (DataStorage.push_data st obj).result = Except.ok obj2 →
      ((DataStorage.push_data st obj).state.events
          = st.events ++ [mkOrbEvent "FileOp_new" (pyStrOptU obj2.u)
              (pyStrOptU obj2.u)]
        ∧ (DataStorage.push_data st obj).state.dataTable
          = st.dataTable ++ [obj2.to_record])
      ∨ ((DataStorage.push_data st obj).state.events
          = st.events ++ [mkOrbEvent "FileOp_update" (pyStrOptU obj2.u)
              (pyStrOptU obj2.u)]
        ∧ (DataStorage.push_data st obj).state.dataTable.length
          = st.dataTable.length))
    ∧ (∀ e, (DataStorage.push_data st obj).result = Except.error e →
        (DataStorage.push_data st obj).state.events = st.events)
    ∧ (∀ m2, (DataStorage.push_meta st m).result = Except.ok m2 →
      ((DataStorage.push_meta st m).state.events
          = st.events ++ [mkOrbEvent "FileOp_new" (pyStrId m2.id)
              (pyStrOptU m.u)]
        ∧ (DataStorage.push_meta st m).state.metaTable
          = st.metaTable ++
            [{ id := m2.id, data_type := "@json", flags := m.flags,
               src := m.handle, u := m.u, ctime := st.now }])
      ∨ ((DataStorage.push_meta st m).state.events
          = st.events ++ [mkOrbEvent "FileOp_update" (pyStrId m2.id)
              (pyStrOptU m.u)]
        ∧ (DataStorage.push_meta st m).state.metaTable.length
          = st.metaTable.length))
    ∧ (∀ e, (DataStorage.push_meta st m).result = Except.error e →
        (DataStorage.push_meta st m).state.events = st.events) := by
  refine ⟨?_, ?_, ?_, ?_⟩
  · intro obj2 h
    by_cases hdb : st.dbOk = true
    · by_cases hnew : ((obj.u == none) || (obj.u == some st.uuidCtr)) = true
      · by_cases hw : st.writeOk = true
        · rw [push_data_insert st obj hdb hnew hw] at h ⊢
          left
          injection h with h2
          subst h2
          exact ⟨rfl, rfl⟩
        · rw [push_data_insert_fail st obj hdb hnew
            (Bool.not_eq_true _ ▸ eq_false_of_ne_true hw)] at h
          exact absurd h (by simp)
      · by_cases hw : st.writeOk = true
        · rw [push_data_update st obj hdb
            (eq_false_of_ne_true hnew) hw] at h ⊢
          right
          injection h with h2
          subst h2
          exact ⟨rfl, by simp⟩
        · rw [push_data_update_fail st obj hdb
            (eq_false_of_ne_true hnew) (eq_false_of_ne_true hw)] at h
          exact absurd h (by simp)
    · rw [push_data_db_error st obj (eq_false_of_ne_true hdb)] at h
      exact absurd h (by simp)
  · intro e h
    by_cases hdb : st.dbOk = true
    · by_cases hnew : ((obj.u == none) || (obj.u == some st.uuidCtr)) = true
      · by_cases hw : st.writeOk = true
        · rw [push_data_insert st obj hdb hnew hw] at h
          exact absurd h (by simp)
        · rw [push_data_insert_fail st obj hdb hnew
            (eq_false_of_ne_true hw)]
      · by_cases hw : st.writeOk = true
        · rw [push_data_update st obj hdb (eq_false_of_ne_true hnew) hw] at h
          exact absurd h (by simp)
        · rw [push_data_update_fail st obj hdb (eq_false_of_ne_true hnew)
            (eq_false_of_ne_true hw)]
    · rw [push_data_db_error st obj (eq_false_of_ne_true hdb)]
  · intro m2 h
    by_cases hdb : st.dbOk = true
    · by_cases hid : m.id ≤ 0
      · by_cases hw : st.writeOk = true
        · rw [push_meta_insert st m hdb hid hw] at h ⊢
          left
          injection h with h2
          subst h2
          exact ⟨rfl, rfl⟩
        · rw [push_meta_insert_fail st m hdb hid
            (eq_false_of_ne_true hw)] at h
          exact absurd h (by simp)
      · by_cases hw : st.writeOk = true
        · rw [push_meta_update st m hdb hid hw] at h ⊢
          right
          injection h with h2
          subst h2
          exact ⟨rfl, by simp⟩
        · rw [push_meta_update_fail st m hdb hid
            (eq_false_of_ne_true hw)] at h
          exact absurd h (by simp)
    · rw [push_meta_db_error st m (eq_false_of_ne_true hdb)] at h
      exact absurd h (by simp)
  · intro e h
    by_cases hdb : st.dbOk = true
    · by_cases hid : m.id ≤ 0
      · by_cases hw : st.writeOk = true
        · rw [push_meta_insert st m hdb hid hw] at h
          exact absurd h (by simp)
        · rw [push_meta_insert_fail st m hdb hid (eq_false_of_ne_true hw)]
      · by_cases hw : st.writeOk = true
        · rw [push_meta_update st m hdb hid hw] at h
          exact absurd h (by simp)
        · rw [push_meta_update_fail st m hdb hid (eq_false_of_ne_true hw)]
    · rw [push_meta_db_error st m (eq_false_of_ne_true hdb)]

/-- Fresh working orb state for the C4 witness. -/
def c4w_st : OrbState :=
  { dataTable := [], metaTable := [], metaNextId := 1, uuidCtr := 100,
    now := 50, events := [], dbOk := true, writeOk := true }

/-- Fresh data object for the C4 witness. -/
def c4w_obj : OrbDataObj :=
  OrbDataObj.make none (some "s") (some (JVal.jobj [])) none none none 0 []
    "@json"

/-- Meta object for the C4 witness. -/
def c4w_m : OrbMetaObj :=
  { id := 0, u := some 9, type := "@OrbMeta", handle := some 3, ctime := 0,
    flags := [] }

/-- The object returned by push_data in the C4 witness run. -/
def c4w_objRes : OrbDataObj := { c4w_obj with u := some 101, ctime := 50 }

/-- Witness for C4 at a concrete fresh insert. -/
theorem c4_witness :
    (DataStorage.push_data c4w_st c4w_obj).result = Except.ok c4w_objRes
    ∧ (((DataStorage.push_data c4w_st c4w_obj).state.events
          = c4w_st.events ++ [mkOrbEvent "FileOp_new"
              (pyStrOptU c4w_objRes.u) (pyStrOptU c4w_objRes.u)]
        ∧ (DataStorage.push_data c4w_st c4w_obj).state.dataTable
          = c4w_st.dataTable ++ [c4w_objRes.to_record])
      ∨ ((DataStorage.push_data c4w_st c4w_obj).state.events
          = c4w_st.events ++ [mkOrbEvent "FileOp_update"
              (pyStrOptU c4w_objRes.u) (pyStrOptU c4w_objRes.u)]
        ∧ (DataStorage.push_data c4w_st c4w_obj).state.dataTable.length
          = c4w_st.dataTable.length)) :=
  ⟨rfl, (c4_mutation_events c4w_st c4w_obj c4w_m).1 c4w_objRes rfl⟩

/-- Orb object for the C5 evaluation: the caller supplies a source, json
data, flags, and chain and parent uuids. -/
def c5_obj : OrbDataObj :=
  OrbDataObj.make none (some "feed") (some (JVal.jobj [("k", JVal.jnum 1)]))
    (some 7) (some 8) (some 9) 0 ["f1"] "@json"

/-- Fresh working orb state for the C5 evaluation. -/
def c5_st : OrbState :=
  { dataTable := [], metaTable := [], metaNextId := 1, uuidCtr := 100,
    now := 50, events := [], dbOk := true, writeOk := true }

/-- C5: push_data then fetch_data round-trips subtype, src, flags and
data, but not the chain fields: the constructor discards the supplied
chain_left = 7, chain_right = 8 and parent = 9, so the fetched record
holds None for all three. -/
theorem c5_roundtrip_loses_chains :
    (DataStorage.push_data c5_st c5_obj).result
      = Except.ok
          { u := some 101, type := "@OrbData", src := some "feed",
            data := some (JVal.jobj [("k", JVal.jnum 1)]),
            chain_left := none, chain_right := none, parent := none,
            ctime := 50, flags := ["f1"], subtype := "@json" }
    ∧ DataStorage.fetch_data (DataStorage.push_data c5_st c5_obj).state 101
      = some
          { u := some 101, ctime := 50, data_type := "@json",
            chain_left := none, chain_right := none, parent := none,
            flags := ["f1"], src := some "feed",
            data := JVal.jobj [("k", JVal.jnum 1)] }
    ∧ (DataStorage.fetch_data (DataStorage.push_data c5_st c5_obj).state
        101).map (fun r => r.chain_left) = some none
    ∧ (some (some 7) : Option (Option UUID)) ≠ some none := by
  refine ⟨rfl, rfl, rfl, ?_⟩
  decide

end Lunaricorn
